import Mathlib

/-!
Shallow embedding of the Verba AI meeting-bot service (the meeting-bot
section of the repository's server source): the MeetingBot class with its
activeMeetings registry, the platform join sequences, leaveMeeting,
extractMeetingId, sendToTranscription, the HTTP handlers for
join/leave/list, and the cron-based scheduling endpoint.
-/

/-- Entry of the activeMeetings JS Map: the object stored by the join
functions, of the shape with fields browser, page, platform, startTime and
status; the browser/page pair is modelled by a numeric driver handle. -/
structure MeetingSession where
  browserId : Nat
  platform : String
  startTime : Nat
  status : String
deriving DecidableEq, Repr

/-- Model of Map.prototype.get over an insertion-ordered association list. -/
def mapGet (l : List (String × MeetingSession)) (k : String) : Option MeetingSession :=
  match l with
  | [] => none
  | (k', v) :: rest => if k' = k then some v else mapGet rest k

/-- Model of Map.prototype.set: updates the value in place when the key is
present (keeping insertion order), appends otherwise. -/
def mapSet (l : List (String × MeetingSession)) (k : String) (v : MeetingSession) :
    List (String × MeetingSession) :=
  match l with
  | [] => [(k, v)]
  | (k', v') :: rest => if k' = k then (k, v) :: rest else (k', v') :: mapSet rest k v

/-- Model of Map.prototype.delete: removes the entry for the key. -/
def mapDelete (l : List (String × MeetingSession)) (k : String) :
    List (String × MeetingSession) :=
  l.filter (fun p => p.1 != k)

/-- ASCII digit class, as the JS regex digit class over these URLs. -/
def isAsciiDigit (c : Char) : Bool := '0' ≤ c && c ≤ '9'

/-- Character class of the Google Meet pattern: lowercase letter or dash. -/
def isLowerOrDash (c : Char) : Bool := ('a' ≤ c && c ≤ 'z') || c = '-'

/-- Character class of the fallback sanitizer: ASCII alphanumeric. -/
def isAsciiAlphanum (c : Char) : Bool :=
  ('0' ≤ c && c ≤ '9') || ('a' ≤ c && c ≤ 'z') || ('A' ≤ c && c ≤ 'Z')

/-- Leftmost match of a regex of the shape "literal followed by a
one-or-more character class": scans for the first position where the
literal occurs followed by at least one character satisfying the class;
the capture is the maximal (greedy) run of such characters, as in the
three JS regexes of extractMeetingId. -/
def matchCapture (lit : List Char) (p : Char → Bool) : List Char → Option (List Char)
  | [] => none
  | c :: cs =>
    if lit.isPrefixOf (c :: cs) then
      let cap := ((c :: cs).drop lit.length).takeWhile p
      if cap.isEmpty then matchCapture lit p cs else some cap
    else matchCapture lit p cs

/-- Model of MeetingBot.extractMeetingId: tries the zoom pattern (a
slash-j-slash literal followed by one or more digits), then the meet
pattern (the meet.google.com slash literal followed by one or more
lowercase letters or dashes), then the teams pattern (the meetup-join
slash literal followed by one or more non-slash characters), in the
insertion order of the patterns object; when none matches, falls back to
stripping every non-alphanumeric character from the URL and taking the
first 20 characters. -/
def extractMeetingId (url : String) : String :=
  let cs := url.toList
  match matchCapture "/j/".toList isAsciiDigit cs with
  | some cap => String.mk cap
  | none =>
  match matchCapture "meet.google.com/".toList isLowerOrDash cs with
  | some cap => String.mk cap
  | none =>
  match matchCapture "meetup-join/".toList (fun c => c != '/') cs with
  | some cap => String.mk cap
  | none => String.mk ((cs.filter isAsciiAlphanum).take 20)

/-- Holds when none of the three platform patterns matches the URL. -/
def noPlatformMatch (url : String) : Prop :=
  matchCapture "/j/".toList isAsciiDigit url.toList = none ∧
  matchCapture "meet.google.com/".toList isLowerOrDash url.toList = none ∧
  matchCapture "meetup-join/".toList (fun c => c != '/') url.toList = none

instance (url : String) : Decidable (noPlatformMatch url) := by
  unfold noPlatformMatch; infer_instance

/-- The fallback slug: non-alphanumeric characters removed, capped at 20. -/
def sanitizedSlug (url : String) : String :=
  String.mk ((url.toList.filter isAsciiAlphanum).take 20)

/-- C3: meeting identifier extraction is a deterministic function of the
URL string alone; the zoom sample URL yields 123456789, the meet sample
URL yields abc-defg-hij, and a URL matching no platform pattern yields the
sanitized, length-capped slug of the whole string. -/
theorem extractMeetingId_deterministic :
    (∀ u v : String, u = v → extractMeetingId u = extractMeetingId v) ∧
    extractMeetingId "https://zoom.us/j/123456789" = "123456789" ∧
    extractMeetingId "https://meet.google.com/abc-defg-hij" = "abc-defg-hij" ∧
    (∀ url : String, noPlatformMatch url → extractMeetingId url = sanitizedSlug url) := by
  refine ⟨fun u v h => h ▸ rfl, by decide, by decide, ?_⟩
  intro url h
  obtain ⟨h1, h2, h3⟩ := h
  simp only [extractMeetingId, sanitizedSlug, h1, h2, h3]

/-- Concrete instance of the fallback case of C3. -/
theorem extractMeetingId_deterministic_witness :
    noPlatformMatch "http://example.org/pa?q=1" ∧
    extractMeetingId "http://example.org/pa?q=1" = sanitizedSlug "http://example.org/pa?q=1" :=
  ⟨by decide, extractMeetingId_deterministic.2.2.2 "http://example.org/pa?q=1" (by decide)⟩

/-- Mutable state of the bot process: the activeMeetings map, a supply of
fresh driver handles, the handles launched and not yet closed, and a count
of how many times a browser close was invoked. -/
structure BotState where
  activeMeetings : List (String × MeetingSession)
  nextBrowserId : Nat
  openBrowsers : List Nat
  closeCalls : Nat
deriving DecidableEq, Repr

/-- Result object of the join functions: success carrying the meetingId,
or failure carrying the error message. -/
inductive JoinResult where
  | success (meetingId : String)
  | failure (error : String)
deriving DecidableEq, Repr

/-- Truthiness of the optional meetingPassword argument (JS: undefined and
the empty string are falsy). -/
def truthy : Option String → Bool
  | none => false
  | some s => s != ""

/-- Outcomes of the awaited driver steps of joinZoomMeeting, in source
order; each flag tells whether that awaited call succeeds or throws. The
startTime field models the clock read when the session object is built. -/
structure ZoomJoinEnv where
  launchOk : Bool
  overridePermissionsOk : Bool
  gotoOk : Bool
  waitNameOk : Bool
  typeNameOk : Bool
  waitPasswordOk : Bool
  typePasswordOk : Bool
  clickJoinOk : Bool
  audioCaptureOk : Bool
  startTime : Nat
deriving DecidableEq, Repr

/-- All steps of a zoom join up to and including the join-button click
succeed (the password steps only run when the password is truthy). -/
def ZoomJoinEnv.preOk (e : ZoomJoinEnv) (pw : Option String) : Bool :=
  e.launchOk && e.overridePermissionsOk && e.gotoOk && e.waitNameOk && e.typeNameOk &&
  (!truthy pw || (e.waitPasswordOk && e.typePasswordOk)) && e.clickJoinOk

/-- Every step of a zoom join succeeds, audio capture included. -/
def ZoomJoinEnv.allOk (e : ZoomJoinEnv) (pw : Option String) : Bool :=
  e.preOk pw && e.audioCaptureOk

/-- Model of MeetingBot.joinZoomMeeting: launches a browser, performs the
awaited driver steps in source order (override permissions, navigate to
the web-client URL, wait for and type into the name field, optionally wait
for and type into the password field, click join), stores the session into
activeMeetings with status active, then installs audio capture. The catch
block only logs and returns a failure object: it never closes the browser,
so a failing step after launch leaves the handle in openBrowsers, and a
failure inside startAudioCapture happens after the registry set. The
botName argument only affects the text typed into the page and is
omitted. -/
def joinZoomMeeting (env : ZoomJoinEnv) (meetingUrl : String)
    (meetingPassword : Option String) (st : BotState) : JoinResult × BotState :=
  if !env.launchOk then
    (JoinResult.failure "browser launch failed", st)
  else
    let browserId := st.nextBrowserId
    let st1 : BotState :=
      { st with nextBrowserId := st.nextBrowserId + 1,
                openBrowsers := browserId :: st.openBrowsers }
    if !env.overridePermissionsOk then (JoinResult.failure "overridePermissions failed", st1)
    else if !env.gotoOk then (JoinResult.failure "navigation failed", st1)
    else if !env.waitNameOk then (JoinResult.failure "TimeoutError: name field", st1)
    else if !env.typeNameOk then (JoinResult.failure "typing name failed", st1)
    else if truthy meetingPassword && !env.waitPasswordOk then
      (JoinResult.failure "TimeoutError: password field", st1)
    else if truthy meetingPassword && !env.typePasswordOk then
      (JoinResult.failure "typing password failed", st1)
    else if !env.clickJoinOk then (JoinResult.failure "join click failed", st1)
    else
      let meetingId := extractMeetingId meetingUrl
      let st2 : BotState :=
        { st1 with
            activeMeetings := mapSet st1.activeMeetings meetingId ⟨browserId, "zoom", env.startTime, "active"⟩ }
      if !env.audioCaptureOk then (JoinResult.failure "audio capture failed", st2)
      else (JoinResult.success meetingId, st2)

/-- Outcomes of the awaited driver steps of joinGoogleMeet, in source
order. The dismiss-popup click is wrapped in its own try/catch whose
failure is swallowed, so it has no observable effect and carries no
flag. -/
structure MeetJoinEnv where
  launchOk : Bool
  gotoOk : Bool
  waitNameOk : Bool
  fillNameOk : Bool
  clickCameraOk : Bool
  clickMicOk : Bool
  clickJoinOk : Bool
  audioCaptureOk : Bool
  startTime : Nat
deriving DecidableEq, Repr

/-- Model of MeetingBot.joinGoogleMeet: launch, navigate, wait for and
fill the name field, toggle camera and microphone off, click join,
register the session with platform meet and status active, install audio
capture. As in the zoom join, the catch block never closes the browser. -/
def joinGoogleMeet (env : MeetJoinEnv) (meetingUrl : String) (st : BotState) :
    JoinResult × BotState :=
  if !env.launchOk then
    (JoinResult.failure "browser launch failed", st)
  else
    let browserId := st.nextBrowserId
    let st1 : BotState :=
      { st with nextBrowserId := st.nextBrowserId + 1,
                openBrowsers := browserId :: st.openBrowsers }
    if !env.gotoOk then (JoinResult.failure "navigation failed", st1)
    else if !env.waitNameOk then (JoinResult.failure "TimeoutError: name field", st1)
    else if !env.fillNameOk then (JoinResult.failure "filling name failed", st1)
    else if !env.clickCameraOk then (JoinResult.failure "camera toggle failed", st1)
    else if !env.clickMicOk then (JoinResult.failure "microphone toggle failed", st1)
    else if !env.clickJoinOk then (JoinResult.failure "join click failed", st1)
    else
      let meetingId := extractMeetingId meetingUrl
      let st2 : BotState :=
        { st1 with
            activeMeetings := mapSet st1.activeMeetings meetingId ⟨browserId, "meet", env.startTime, "active"⟩ }
      if !env.audioCaptureOk then (JoinResult.failure "audio capture failed", st2)
      else (JoinResult.success meetingId, st2)

/-- Outcomes of the awaited driver steps of joinTeamsMeeting, in source
order. -/
structure TeamsJoinEnv where
  launchOk : Bool
  gotoOk : Bool
  waitWebClientOk : Bool
  clickWebClientOk : Bool
  waitNameOk : Bool
  fillNameOk : Bool
  clickCameraOk : Bool
  clickMicOk : Bool
  clickJoinOk : Bool
  audioCaptureOk : Bool
  startTime : Nat
deriving DecidableEq, Repr

/-- Model of MeetingBot.joinTeamsMeeting: launch, navigate, choose the
web-client link, wait for and fill the name field, toggle camera and
microphone off, click join, register the session with platform teams and
status active, install audio capture. As in the zoom join, the catch block
never closes the browser. -/
def joinTeamsMeeting (env : TeamsJoinEnv) (meetingUrl : String) (st : BotState) :
    JoinResult × BotState :=
  if !env.launchOk then
    (JoinResult.failure "browser launch failed", st)
  else
    let browserId := st.nextBrowserId
    let st1 : BotState :=
      { st with nextBrowserId := st.nextBrowserId + 1,
                openBrowsers := browserId :: st.openBrowsers }
    if !env.gotoOk then (JoinResult.failure "navigation failed", st1)
    else if !env.waitWebClientOk then (JoinResult.failure "TimeoutError: web client link", st1)
    else if !env.clickWebClientOk then (JoinResult.failure "web client click failed", st1)
    else if !env.waitNameOk then (JoinResult.failure "TimeoutError: name field", st1)
    else if !env.fillNameOk then (JoinResult.failure "filling name failed", st1)
    else if !env.clickCameraOk then (JoinResult.failure "camera toggle failed", st1)
    else if !env.clickMicOk then (JoinResult.failure "microphone toggle failed", st1)
    else if !env.clickJoinOk then (JoinResult.failure "join click failed", st1)
    else
      let meetingId := extractMeetingId meetingUrl
      let st2 : BotState :=
        { st1 with
            activeMeetings := mapSet st1.activeMeetings meetingId ⟨browserId, "teams", env.startTime, "active"⟩ }
      if !env.audioCaptureOk then (JoinResult.failure "audio capture failed", st2)
      else (JoinResult.success meetingId, st2)

/-- Result object of leaveMeeting: success, or failure with the message. -/
inductive LeaveResult where
  | success
  | failure (error : String)
deriving DecidableEq, Repr

/-- Model of MeetingBot.leaveMeeting: looks up the id; when the entry is
absent returns the failure object with message Meeting not found.
Otherwise awaits the browser close (counted in closeCalls); a throwing
close lands in the catch, which returns a failure without deleting the
registry entry; only a successful close reaches the delete. -/
def leaveMeeting (closeOk : Bool) (meetingId : String) (st : BotState) :
    LeaveResult × BotState :=
  match mapGet st.activeMeetings meetingId with
  | none => (LeaveResult.failure "Meeting not found", st)
  | some meeting =>
    let st1 : BotState := { st with closeCalls := st.closeCalls + 1 }
    if closeOk then
      (LeaveResult.success,
        { st1 with
            openBrowsers := st1.openBrowsers.filter (fun b => b != meeting.browserId),
            activeMeetings := mapDelete st1.activeMeetings meetingId })
    else
      (LeaveResult.failure "browser close failed", st1)

/-- Looking a key up right after setting it yields the just-set value. -/
theorem mapGet_mapSet_self :
    ∀ (l : List (String × MeetingSession)) (k : String) (v : MeetingSession),
      mapGet (mapSet l k v) k = some v
  | [], k, v => by simp [mapSet, mapGet]
  | (k', v') :: rest, k, v => by
    by_cases h : k' = k
    · simp [mapSet, mapGet, h]
    · simp [mapSet, mapGet, h, mapGet_mapSet_self rest k v]

/-- Looking a key up right after deleting it yields none. -/
theorem mapGet_mapDelete_self :
    ∀ (l : List (String × MeetingSession)) (k : String),
      mapGet (mapDelete l k) k = none
  | [], _ => by simp [mapDelete, mapGet]
  | (k', v') :: rest, k => by
    by_cases h : k' = k
    · simpa [mapDelete, List.filter_cons, h] using mapGet_mapDelete_self rest k
    · simpa [mapDelete, List.filter_cons, h, mapGet, bne] using mapGet_mapDelete_self rest k

/-- The key sequence after a set: unchanged when the key was present,
extended by the key otherwise. -/
theorem mapSet_keys :
    ∀ (l : List (String × MeetingSession)) (k : String) (v : MeetingSession),
      (mapSet l k v).map Prod.fst =
        if k ∈ l.map Prod.fst then l.map Prod.fst else l.map Prod.fst ++ [k]
  | [], k, v => by simp [mapSet]
  | (k', v') :: rest, k, v => by
    by_cases h : k' = k
    · simp [mapSet, h]
    · have hne : ¬ k = k' := fun hk => h hk.symm
      simp [mapSet, h, hne, mapSet_keys rest k v]
      by_cases hmem : k ∈ rest.map Prod.fst <;> simp [hmem, hne]

/-- A set keeps the keys of the map without duplicates. -/
theorem mapSet_keys_nodup (l : List (String × MeetingSession)) (k : String)
    (v : MeetingSession) (h : (l.map Prod.fst).Nodup) :
    ((mapSet l k v).map Prod.fst).Nodup := by
  rw [mapSet_keys]
  by_cases hmem : k ∈ l.map Prod.fst
  · simpa [hmem] using h
  · simp [hmem, List.nodup_append, h]

/-- Unfolding of leaveMeeting on an absent id. -/
theorem leaveMeeting_of_mapGet_none (closeOk : Bool) (meetingId : String) (st : BotState)
    (h : mapGet st.activeMeetings meetingId = none) :
    leaveMeeting closeOk meetingId st = (LeaveResult.failure "Meeting not found", st) := by
  simp [leaveMeeting, h]

/-- C4: leaveMeeting on a meetingId with no session in the registry
returns the not-found failure object and leaves the whole state (registry
included) unchanged; being a total function, it never throws. -/
theorem leaveMeeting_not_found :
    ∀ (closeOk : Bool) (meetingId : String) (st : BotState),
      mapGet st.activeMeetings meetingId = none →
      leaveMeeting closeOk meetingId st = (LeaveResult.failure "Meeting not found", st) := by
  intro ok mid st h
  simp [leaveMeeting, h]

/-- Concrete instance of C4 on the empty registry. -/
theorem leaveMeeting_not_found_witness :
    mapGet (BotState.mk [] 0 [] 0).activeMeetings "m1" = none ∧
    leaveMeeting true "m1" (BotState.mk [] 0 [] 0) =
      (LeaveResult.failure "Meeting not found", BotState.mk [] 0 [] 0) :=
  ⟨by decide, leaveMeeting_not_found true "m1" (BotState.mk [] 0 [] 0) (by decide)⟩

/-- C5 (counterexample): for a registered session whose browser close
throws, the entry is not deleted, so an immediately following second
leaveMeeting does not return the not-found failure and runs the driver
teardown a second time (two close invocations in total). -/
theorem leaveMeeting_twice_counterexample :
    (leaveMeeting true "m1"
        ((leaveMeeting false "m1"
            (BotState.mk [("m1", MeetingSession.mk 0 "zoom" 0 "active")] 1 [0] 0)).2)).1 ≠
      LeaveResult.failure "Meeting not found" ∧
    (leaveMeeting true "m1"
        ((leaveMeeting false "m1"
            (BotState.mk [("m1", MeetingSession.mk 0 "zoom" 0 "active")] 1 [0] 0)).2)).2.closeCalls = 2 := by
  decide

/-- C5 (amended): for every registered session whose driver close
succeeds, a first leaveMeeting succeeds and a second one on the same id
returns the not-found failure without closing again, so the teardown ran
exactly once across both calls. -/
theorem leaveMeeting_idempotent_on_success :
    ∀ (meetingId : String) (st : BotState) (s : MeetingSession),
      mapGet st.activeMeetings meetingId = some s →
      (leaveMeeting true meetingId st).1 = LeaveResult.success ∧
      (leaveMeeting true meetingId ((leaveMeeting true meetingId st).2)).1 =
        LeaveResult.failure "Meeting not found" ∧
      (leaveMeeting true meetingId ((leaveMeeting true meetingId st).2)).2.closeCalls =
        st.closeCalls + 1 := by
  intro mid st s h
  have h2 : mapGet ((leaveMeeting true mid st).2).activeMeetings mid = none := by
    simp [leaveMeeting, h, mapGet_mapDelete_self]
  refine ⟨by simp [leaveMeeting, h], ?_, ?_⟩
  · rw [leaveMeeting_of_mapGet_none true mid _ h2]
  · have hc : ((leaveMeeting true mid st).2).closeCalls = st.closeCalls + 1 := by
      simp [leaveMeeting, h]
    rw [leaveMeeting_of_mapGet_none true mid _ h2]
    exact hc

/-- Concrete instance of C5 (amended) on a one-session registry. -/
theorem leaveMeeting_idempotent_on_success_witness :
    mapGet (BotState.mk [("m1", MeetingSession.mk 0 "zoom" 0 "active")] 1 [0] 0).activeMeetings
        "m1" = some (MeetingSession.mk 0 "zoom" 0 "active") ∧
    (leaveMeeting true "m1"
        ((leaveMeeting true "m1"
            (BotState.mk [("m1", MeetingSession.mk 0 "zoom" 0 "active")] 1 [0] 0)).2)).1 =
      LeaveResult.failure "Meeting not found" :=
  ⟨by decide,
    (leaveMeeting_idempotent_on_success "m1"
      (BotState.mk [("m1", MeetingSession.mk 0 "zoom" 0 "active")] 1 [0] 0)
      (MeetingSession.mk 0 "zoom" 0 "active") (by decide)).2.1⟩

/-- C6 (counterexample): when closing the driver raises an error, the
leaveMeeting catch returns before the delete, so the registry entry for
the meetingId is still present after leave returns. -/
theorem leaveMeeting_close_fail_counterexample :
    mapGet ((leaveMeeting false "m1"
        (BotState.mk [("m1", MeetingSession.mk 0 "zoom" 0 "active")] 1 [0] 0)).2).activeMeetings
      "m1" = some (MeetingSession.mk 0 "zoom" 0 "active") := by
  decide

/-- C6 (amended): for every registered session, a leaveMeeting whose
driver close succeeds removes the entry from the registry, while a
leaveMeeting whose driver close throws returns a failure and leaves the
entry registered. -/
theorem leaveMeeting_removal :
    ∀ (meetingId : String) (st : BotState) (s : MeetingSession),
      mapGet st.activeMeetings meetingId = some s →
      mapGet ((leaveMeeting true meetingId st).2).activeMeetings meetingId = none ∧
      (leaveMeeting false meetingId st).1 = LeaveResult.failure "browser close failed" ∧
      mapGet ((leaveMeeting false meetingId st).2).activeMeetings meetingId = some s := by
  intro mid st s h
  refine ⟨by simp [leaveMeeting, h, mapGet_mapDelete_self], by simp [leaveMeeting, h], ?_⟩
  simp [leaveMeeting, h]

/-- Concrete instance of C6 (amended) on a one-session registry. -/
theorem leaveMeeting_removal_witness :
    mapGet (BotState.mk [("m2", MeetingSession.mk 3 "meet" 7 "active")] 4 [3] 0).activeMeetings
        "m2" = some (MeetingSession.mk 3 "meet" 7 "active") ∧
    mapGet ((leaveMeeting true "m2"
        (BotState.mk [("m2", MeetingSession.mk 3 "meet" 7 "active")] 4 [3] 0)).2).activeMeetings
      "m2" = none :=
  ⟨by decide,
    (leaveMeeting_removal "m2"
      (BotState.mk [("m2", MeetingSession.mk 3 "meet" 7 "active")] 4 [3] 0)
      (MeetingSession.mk 3 "meet" 7 "active") (by decide)).1⟩

/-- Case analysis of joinZoomMeeting when the launch succeeds: either some
later step fails, leaving the launched browser open and the registry
untouched, or every pre-registration step succeeds and the session is
registered with status active, the result then depending only on the
audio-capture step. -/
theorem joinZoom_shape (env : ZoomJoinEnv) (url : String) (pw : Option String) (st : BotState)
    (hl : env.launchOk = true) :
    (env.preOk pw = false ∧ ∃ e, joinZoomMeeting env url pw st =
        (JoinResult.failure e,
         { st with nextBrowserId := st.nextBrowserId + 1,
                   openBrowsers := st.nextBrowserId :: st.openBrowsers })) ∨
    (env.preOk pw = true ∧ joinZoomMeeting env url pw st =
        ((if env.audioCaptureOk then JoinResult.success (extractMeetingId url)
          else JoinResult.failure "audio capture failed"),
         { st with nextBrowserId := st.nextBrowserId + 1,
                   openBrowsers := st.nextBrowserId :: st.openBrowsers,
                   activeMeetings := mapSet st.activeMeetings (extractMeetingId url)
                     ⟨st.nextBrowserId, "zoom", env.startTime, "active"⟩ })) := by
  obtain ⟨lo, po, go, wn, tn, wp, tp, cj, ac, t⟩ := env
  have hl' : lo = true := hl
  subst hl'
  cases po <;> cases go <;> cases wn <;> cases tn <;> cases cj <;> cases ac <;>
    cases htr : truthy pw <;> cases wp <;> cases tp <;>
      simp_all [joinZoomMeeting, ZoomJoinEnv.preOk]

/-- C1 (counterexample): with every step succeeding, a second
joinZoomMeeting for the same URL while the first session is still active
does not fail with a duplicate-session error: it returns success and
launches a second driver, so two browsers are open. -/
theorem duplicateJoin_counterexample :
    (joinZoomMeeting (ZoomJoinEnv.mk true true true true true true true true true 0)
        "https://zoom.us/j/123456789" none
        ((joinZoomMeeting (ZoomJoinEnv.mk true true true true true true true true true 0)
            "https://zoom.us/j/123456789" none (BotState.mk [] 0 [] 0)).2)).1 =
      JoinResult.success "123456789" ∧
    (joinZoomMeeting (ZoomJoinEnv.mk true true true true true true true true true 0)
        "https://zoom.us/j/123456789" none
        ((joinZoomMeeting (ZoomJoinEnv.mk true true true true true true true true true 0)
            "https://zoom.us/j/123456789" none (BotState.mk [] 0 [] 0)).2)).2.openBrowsers =
      [1, 0] := by
  decide

/-- C1 (amended): the registry keeps at most one entry per meetingId (a
set on an existing key overwrites in place, preserving key uniqueness),
but a second joinZoomMeeting for an id with an active session does not
fail: it returns success, launches a fresh driver, and silently replaces
the registry entry with one pointing at the new driver, leaving the first
session's driver open. -/
theorem joinZoomMeeting_overwrites_duplicate :
    ∀ (env : ZoomJoinEnv) (url : String) (pw : Option String) (st : BotState)
      (s : MeetingSession),
      env.allOk pw = true →
      mapGet st.activeMeetings (extractMeetingId url) = some s →
      ((joinZoomMeeting env url pw st).1 = JoinResult.success (extractMeetingId url) ∧
       mapGet ((joinZoomMeeting env url pw st).2).activeMeetings (extractMeetingId url) =
         some (MeetingSession.mk st.nextBrowserId "zoom" env.startTime "active") ∧
       ((joinZoomMeeting env url pw st).2).openBrowsers = st.nextBrowserId :: st.openBrowsers) ∧
      ((st.activeMeetings.map Prod.fst).Nodup →
        (((joinZoomMeeting env url pw st).2).activeMeetings.map Prod.fst).Nodup) := by
  intro env url pw st s hall hget
  have hpre : env.preOk pw = true ∧ env.audioCaptureOk = true := by
    simpa [ZoomJoinEnv.allOk, Bool.and_eq_true] using hall
  have hl : env.launchOk = true := by
    have hp := hpre.1
    simp only [ZoomJoinEnv.preOk, Bool.and_eq_true] at hp
    exact hp.1.1.1.1.1.1
  rcases joinZoom_shape env url pw st hl with ⟨hf, _, _⟩ | ⟨_, heq⟩
  · rw [hpre.1] at hf; cases hf
  · rw [heq]
    refine ⟨⟨?_, ?_, ?_⟩, ?_⟩
    · simp [hpre.2]
    · simp [mapGet_mapSet_self]
    · rfl
    · intro hnd
      exact mapSet_keys_nodup _ _ _ hnd

/-- Concrete instance of C1 (amended): duplicate join over a registry
already holding the id. -/
theorem joinZoomMeeting_overwrites_duplicate_witness :
    (ZoomJoinEnv.mk true true true true true true true true true 5).allOk none = true ∧
    mapGet (BotState.mk [("123456789", MeetingSession.mk 0 "zoom" 0 "active")] 1 [0]
        0).activeMeetings (extractMeetingId "https://zoom.us/j/123456789") =
      some (MeetingSession.mk 0 "zoom" 0 "active") ∧
    (joinZoomMeeting (ZoomJoinEnv.mk true true true true true true true true true 5)
        "https://zoom.us/j/123456789" none
        (BotState.mk [("123456789", MeetingSession.mk 0 "zoom" 0 "active")] 1 [0] 0)).1 =
      JoinResult.success (extractMeetingId "https://zoom.us/j/123456789") :=
  ⟨by decide, by decide,
    (joinZoomMeeting_overwrites_duplicate
      (ZoomJoinEnv.mk true true true true true true true true true 5)
      "https://zoom.us/j/123456789" none
      (BotState.mk [("123456789", MeetingSession.mk 0 "zoom" 0 "active")] 1 [0] 0)
      (MeetingSession.mk 0 "zoom" 0 "active") (by decide) (by decide)).1.1⟩

/-- C2 (counterexample): a join failing at the audio-capture step returns
a failure outcome, yet the launched browser is still open and the
just-registered entry is still in the registry. -/
theorem failedJoin_counterexample :
    (joinZoomMeeting (ZoomJoinEnv.mk true true true true true true true true false 0)
        "https://zoom.us/j/123456789" none (BotState.mk [] 0 [] 0)).1 =
      JoinResult.failure "audio capture failed" ∧
    (joinZoomMeeting (ZoomJoinEnv.mk true true true true true true true true false 0)
        "https://zoom.us/j/123456789" none (BotState.mk [] 0 [] 0)).2.openBrowsers = [0] ∧
    mapGet (joinZoomMeeting (ZoomJoinEnv.mk true true true true true true true true false 0)
        "https://zoom.us/j/123456789" none (BotState.mk [] 0 [] 0)).2.activeMeetings
      "123456789" = some (MeetingSession.mk 0 "zoom" 0 "active") := by
  decide

/-- C2 (amended): every failed join (past a successful launch) returns a
failure outcome, but the driver it launched stays open rather than being
closed; a failure before the registry set leaves the registry unchanged,
while a failure during audio-capture installation leaves the
just-registered entry in place. -/
theorem joinZoomMeeting_failure_cleanup :
    ∀ (env : ZoomJoinEnv) (url : String) (pw : Option String) (st : BotState),
      env.launchOk = true →
      ((∀ e, (joinZoomMeeting env url pw st).1 = JoinResult.failure e →
          st.nextBrowserId ∈ ((joinZoomMeeting env url pw st).2).openBrowsers) ∧
       (env.audioCaptureOk = true →
          ∀ e, (joinZoomMeeting env url pw st).1 = JoinResult.failure e →
            ((joinZoomMeeting env url pw st).2).activeMeetings = st.activeMeetings) ∧
       (env.preOk pw = true → env.audioCaptureOk = false →
          (joinZoomMeeting env url pw st).1 = JoinResult.failure "audio capture failed" ∧
          mapGet ((joinZoomMeeting env url pw st).2).activeMeetings (extractMeetingId url) =
            some (MeetingSession.mk st.nextBrowserId "zoom" env.startTime "active"))) := by
  intro env url pw st hl
  rcases joinZoom_shape env url pw st hl with ⟨hf, e, heq⟩ | ⟨hp, heq⟩
  · rw [heq]
    refine ⟨fun e' _ => by simp, fun _ e' _ => rfl, fun hp' _ => ?_⟩
    rw [hf] at hp'; cases hp'
  · rcases Bool.eq_false_or_eq_true env.audioCaptureOk with hac | hac
    · rw [hac] at heq
      simp only [if_true] at heq
      rw [heq]
      refine ⟨fun e' he' => ?_, fun _ e' he' => ?_, fun _ hacf => ?_⟩
      · simp at he'
      · simp at he'
      · rw [hacf] at hac; cases hac
    · rw [hac] at heq
      simp only [Bool.false_eq_true, if_false] at heq
      rw [heq]
      refine ⟨fun e' _ => by simp, fun hat _ _ => ?_, fun _ _ => ?_⟩
      · rw [hat] at hac; cases hac
      · exact ⟨rfl, by simp [mapGet_mapSet_self]⟩

/-- Concrete instance of C2 (amended): the audio-capture failure case. -/
theorem joinZoomMeeting_failure_cleanup_witness :
    (ZoomJoinEnv.mk true true true true true true true true false 0).launchOk = true ∧
    (ZoomJoinEnv.mk true true true true true true true true false 0).preOk none = true ∧
    (ZoomJoinEnv.mk true true true true true true true true false 0).audioCaptureOk = false ∧
    (joinZoomMeeting (ZoomJoinEnv.mk true true true true true true true true false 0)
        "https://zoom.us/j/555" none (BotState.mk [] 0 [] 0)).1 =
      JoinResult.failure "audio capture failed" :=
  ⟨rfl, by decide, rfl,
    ((joinZoomMeeting_failure_cleanup
      (ZoomJoinEnv.mk true true true true true true true true false 0)
      "https://zoom.us/j/555" none (BotState.mk [] 0 [] 0) rfl).2.2 (by decide) rfl).1⟩

/-- State of the host-side relay: the chunks successfully posted to the
transcription endpoint, in order, and the number of delivery errors
logged by the catch. -/
structure RelayState where
  delivered : List (String × String)
  errorsLogged : Nat
deriving DecidableEq, Repr

/-- Model of MeetingBot.sendToTranscription: one awaited outbound post of
the chunk tagged with the meetingId; on failure the catch only logs the
error. The bot state is not touched on either path, and no exception
escapes. The postOk flag is the outcome of the network call. -/
def sendToTranscription (postOk : Bool) (meetingId audioData : String)
    (rs : RelayState) (st : BotState) : RelayState × BotState :=
  if postOk then
    ({ rs with delivered := rs.delivered ++ [(meetingId, audioData)] }, st)
  else
    ({ rs with errorsLogged := rs.errorsLogged + 1 }, st)

/-- Forwarding of a sequence of audio chunks, each paired with the outcome
of its own network call, as produced by the console listener installed by
startAudioCapture. -/
def forwardChunks (meetingId : String) (chunks : List (String × Bool))
    (rs : RelayState) (st : BotState) : RelayState × BotState :=
  match chunks with
  | [] => (rs, st)
  | (data, ok) :: rest =>
    let next := sendToTranscription ok meetingId data rs st
    forwardChunks meetingId rest next.1 next.2

/-- C7: a failed forwarding call for one audio chunk is absorbed locally:
for every sequence of chunks with arbitrary per-chunk outcomes, the bot
state (sessions and statuses included) is unchanged, every successful
chunk is delivered in order regardless of earlier failures, and each
failure only increments the logged-error count. -/
theorem sendToTranscription_absorbs_failures :
    ∀ (meetingId : String) (chunks : List (String × Bool)) (rs : RelayState) (st : BotState),
      (forwardChunks meetingId chunks rs st).2 = st ∧
      (forwardChunks meetingId chunks rs st).1.delivered =
        rs.delivered ++ (chunks.filter (fun c => c.2)).map (fun c => (meetingId, c.1)) ∧
      (forwardChunks meetingId chunks rs st).1.errorsLogged =
        rs.errorsLogged + (chunks.filter (fun c => !c.2)).length := by
  intro mid chunks
  induction chunks with
  | nil => intro rs st; simp [forwardChunks]
  | cons c rest ih =>
    intro rs st
    obtain ⟨d, ok⟩ := c
    cases ok <;>
      (simp [forwardChunks, sendToTranscription, ih, List.filter_cons]; try omega)

/-- Wall-clock minute with the JS Date conventions: month is 0-based. -/
structure ClockTime where
  minute : Nat
  hour : Nat
  day : Nat
  month : Nat
  year : Nat
deriving DecidableEq, Repr

/-- Cron pattern built by the schedule-bot endpoint: minute, hour,
day-of-month, month (1-based), with a wildcard day-of-week field. -/
structure CronPattern where
  minute : Nat
  hour : Nat
  dayOfMonth : Nat
  month : Nat
deriving DecidableEq, Repr

/-- Pattern construction of the schedule-bot endpoint from the scheduled
time: getMinutes, getHours, getDate, getMonth plus one, and a star for
day-of-week. -/
def cronPatternOf (t : ClockTime) : CronPattern :=
  CronPattern.mk t.minute t.hour t.day (t.month + 1)

/-- Matching semantics of the cron library for a five-field pattern whose
day-of-week field is a wildcard: the registered task runs at every clock
minute whose minute, hour, day-of-month and month equal the pattern's, in
every year, until the task is stopped — and the endpoint never stops it. -/
def cronMatches (pat : CronPattern) (now : ClockTime) : Bool :=
  pat.minute = now.minute && pat.hour = now.hour &&
  pat.dayOfMonth = now.day && pat.month = now.month + 1

/-- Whether the scheduled-join task registered by the schedule-bot
endpoint for the given scheduled time fires at the given minute. -/
def scheduleBotFires (scheduledTime now : ClockTime) : Bool :=
  cronMatches (cronPatternOf scheduledTime) now

/-- C9: the deferred join registered for 2026-03-15 10:30 fires at its
scheduled minute, but the cron pattern derived from it (which carries no
year and is never stopped) also fires at 2027-03-15 10:30, a distinct
later minute — the deferred action is not destroyed after firing and
triggers a second join for the same scheduled request. -/
theorem scheduleBot_fires_repeatedly :
    scheduleBotFires (ClockTime.mk 30 10 15 2 2026) (ClockTime.mk 30 10 15 2 2026) = true ∧
    scheduleBotFires (ClockTime.mk 30 10 15 2 2026) (ClockTime.mk 30 10 15 2 2027) = true ∧
    (ClockTime.mk 30 10 15 2 2026) ≠ (ClockTime.mk 30 10 15 2 2027) := by
  decide

/-- ASCII lowercasing, the effect of toLowerCase on the platform names the
handler compares against. -/
def toLowerAscii (s : String) : String :=
  String.mk (s.toList.map fun c =>
    if 'A' ≤ c && c ≤ 'Z' then Char.ofNat (c.toNat + 32) else c)

/-- Step outcomes for whichever join the handler dispatches to. -/
structure ApiJoinEnv where
  zoom : ZoomJoinEnv
  meet : MeetJoinEnv
  teams : TeamsJoinEnv
deriving DecidableEq, Repr

/-- Model of the join-meeting HTTP handler: switches on the lowercased
platform name (zoom; meet or google; teams or microsoft); any other name
hits the default case, which builds the unsupported-platform failure
object without calling the bot, and the handler returns the result to the
caller. -/
def apiJoinMeeting (env : ApiJoinEnv) (platform meetingUrl : String)
    (password : Option String) (st : BotState) : JoinResult × BotState :=
  if toLowerAscii platform = "zoom" then joinZoomMeeting env.zoom meetingUrl password st
  else if toLowerAscii platform = "meet" ∨ toLowerAscii platform = "google" then
    joinGoogleMeet env.meet meetingUrl st
  else if toLowerAscii platform = "teams" ∨ toLowerAscii platform = "microsoft" then
    joinTeamsMeeting env.teams meetingUrl st
  else (JoinResult.failure "Unsupported platform", st)

/-- C8: a join request naming a platform outside the supported set fails
synchronously with the unsupported-platform failure object, and the whole
bot state — registry, launched browsers, handle supply — is returned
unchanged: no driver is launched and no side effect is performed. -/
theorem apiJoinMeeting_unsupported_platform :
    ∀ (env : ApiJoinEnv) (platform meetingUrl : String) (password : Option String)
      (st : BotState),
      toLowerAscii platform ≠ "zoom" → toLowerAscii platform ≠ "meet" →
      toLowerAscii platform ≠ "google" → toLowerAscii platform ≠ "teams" →
      toLowerAscii platform ≠ "microsoft" →
      apiJoinMeeting env platform meetingUrl password st =
        (JoinResult.failure "Unsupported platform", st) := by
  intro env p url pw st h1 h2 h3 h4 h5
  simp [apiJoinMeeting, h1, h2, h3, h4, h5]

/-- Concrete instance of C8 with the platform name Webex. -/
theorem apiJoinMeeting_unsupported_platform_witness :
    toLowerAscii "Webex" ≠ "zoom" ∧
    apiJoinMeeting
        (ApiJoinEnv.mk (ZoomJoinEnv.mk true true true true true true true true true 0)
          (MeetJoinEnv.mk true true true true true true true true 0)
          (TeamsJoinEnv.mk true true true true true true true true true true 0))
        "Webex" "https://webex.example/j" none (BotState.mk [] 0 [] 0) =
      (JoinResult.failure "Unsupported platform", BotState.mk [] 0 [] 0) :=
  ⟨by decide,
    apiJoinMeeting_unsupported_platform
      (ApiJoinEnv.mk (ZoomJoinEnv.mk true true true true true true true true true 0)
        (MeetJoinEnv.mk true true true true true true true true 0)
        (TeamsJoinEnv.mk true true true true true true true true true true 0))
      "Webex" "https://webex.example/j" none (BotState.mk [] 0 [] 0)
      (by decide) (by decide) (by decide) (by decide) (by decide)⟩

/-- The registry after a zoom join: unchanged, or extended by a set whose
stored session has status active. -/
theorem joinZoom_registry (env : ZoomJoinEnv) (url : String) (pw : Option String)
    (st : BotState) :
    ((joinZoomMeeting env url pw st).2).activeMeetings = st.activeMeetings ∨
    ((joinZoomMeeting env url pw st).2).activeMeetings =
      mapSet st.activeMeetings (extractMeetingId url)
        (MeetingSession.mk st.nextBrowserId "zoom" env.startTime "active") := by
  unfold joinZoomMeeting
  repeat' split
  all_goals simp

/-- The registry after a meet join: unchanged, or extended by a set whose
stored session has status active. -/
theorem joinMeet_registry (env : MeetJoinEnv) (url : String) (st : BotState) :
    ((joinGoogleMeet env url st).2).activeMeetings = st.activeMeetings ∨
    ((joinGoogleMeet env url st).2).activeMeetings =
      mapSet st.activeMeetings (extractMeetingId url)
        (MeetingSession.mk st.nextBrowserId "meet" env.startTime "active") := by
  unfold joinGoogleMeet
  repeat' split
  all_goals simp

/-- The registry after a teams join: unchanged, or extended by a set whose
stored session has status active. -/
theorem joinTeams_registry (env : TeamsJoinEnv) (url : String) (st : BotState) :
    ((joinTeamsMeeting env url st).2).activeMeetings = st.activeMeetings ∨
    ((joinTeamsMeeting env url st).2).activeMeetings =
      mapSet st.activeMeetings (extractMeetingId url)
        (MeetingSession.mk st.nextBrowserId "teams" env.startTime "active") := by
  unfold joinTeamsMeeting
  repeat' split
  all_goals simp

/-- The registry after the join handler: unchanged, or extended by a set
whose stored session has status active. -/
theorem apiJoin_registry (env : ApiJoinEnv) (platform url : String) (pw : Option String)
    (st : BotState) :
    ((apiJoinMeeting env platform url pw st).2).activeMeetings = st.activeMeetings ∨
    ∃ k v, v.status = "active" ∧
      ((apiJoinMeeting env platform url pw st).2).activeMeetings =
        mapSet st.activeMeetings k v := by
  unfold apiJoinMeeting
  split
  · rcases joinZoom_registry env.zoom url pw st with h | h
    · exact Or.inl h
    · exact Or.inr ⟨_, _, rfl, h⟩
  split
  · rcases joinMeet_registry env.meet url st with h | h
    · exact Or.inl h
    · exact Or.inr ⟨_, _, rfl, h⟩
  split
  · rcases joinTeams_registry env.teams url st with h | h
    · exact Or.inl h
    · exact Or.inr ⟨_, _, rfl, h⟩
  · exact Or.inl rfl

/-- The registry after a leave: unchanged, or with the entry deleted. -/
theorem leave_registry (closeOk : Bool) (meetingId : String) (st : BotState) :
    ((leaveMeeting closeOk meetingId st).2).activeMeetings = st.activeMeetings ∨
    ((leaveMeeting closeOk meetingId st).2).activeMeetings =
      mapDelete st.activeMeetings meetingId := by
  rcases h : mapGet st.activeMeetings meetingId with _ | s <;>
    cases closeOk <;> simp [leaveMeeting, h]

/-- A set whose value has status active preserves the all-active
property of the registry. -/
theorem allActive_mapSet :
    ∀ (l : List (String × MeetingSession)) (k : String) (v : MeetingSession),
      (∀ p ∈ l, p.2.status = "active") → v.status = "active" →
      ∀ p ∈ mapSet l k v, p.2.status = "active" := by
  intro l k v
  induction l with
  | nil =>
    intro _ hv p hp
    simp [mapSet] at hp
    simp [hp, hv]
  | cons q rest ih =>
    intro hl hv p hp
    obtain ⟨k', v'⟩ := q
    by_cases h : k' = k
    · simp only [mapSet, if_pos h] at hp
      rcases List.mem_cons.mp hp with hp | hp
      · simp [hp, hv]
      · exact hl p (List.mem_cons_of_mem _ hp)
    · simp only [mapSet, if_neg h] at hp
      rcases List.mem_cons.mp hp with hp | hp
      · exact hl p (by simp [hp])
      · exact ih (fun r hr => hl r (List.mem_cons_of_mem _ hr)) hv p hp

/-- Initial bot state: empty registry, no browsers. -/
def initialBotState : BotState := BotState.mk [] 0 [] 0

/-- An externally triggered operation on the bot: a join request through
the handler, or a leave request. -/
inductive BotOp where
  | join (env : ApiJoinEnv) (platform meetingUrl : String) (password : Option String)
  | leave (closeOk : Bool) (meetingId : String)

/-- State transition of one operation. -/
def applyOp (st : BotState) (op : BotOp) : BotState :=
  match op with
  | BotOp.join env platform url pw => (apiJoinMeeting env platform url pw st).2
  | BotOp.leave ok mid => (leaveMeeting ok mid st).2

/-- The bot state reached from startup by a sequence of operations. -/
def runOps (ops : List BotOp) : BotState := ops.foldl applyOp initialBotState

/-- Summary object produced by the active-meetings HTTP handler for one
registry entry: id, platform, startTime and status. -/
structure MeetingSummary where
  id : String
  platform : String
  startTime : Nat
  status : String
deriving DecidableEq, Repr

/-- Model of the active-meetings HTTP handler: maps the registry entries
to their summaries. -/
def apiActiveMeetings (st : BotState) : List MeetingSummary :=
  st.activeMeetings.map (fun p => MeetingSummary.mk p.1 p.2.platform p.2.startTime p.2.status)

/-- One operation preserves the all-active property of the registry. -/
theorem allActive_applyOp (st : BotState) (op : BotOp)
    (h : ∀ p ∈ st.activeMeetings, p.2.status = "active") :
    ∀ p ∈ (applyOp st op).activeMeetings, p.2.status = "active" := by
  cases op with
  | join env platform url pw =>
    intro p hp
    simp only [applyOp] at hp
    rcases apiJoin_registry env platform url pw st with heq | ⟨k, v, hv, heq⟩
    · rw [heq] at hp; exact h p hp
    · rw [heq] at hp; exact allActive_mapSet st.activeMeetings k v h hv p hp
  | leave ok mid =>
    intro p hp
    simp only [applyOp] at hp
    rcases leave_registry ok mid st with heq | heq
    · rw [heq] at hp; exact h p hp
    · rw [heq] at hp
      simp only [mapDelete] at hp
      exact h p (List.mem_filter.mp hp).1

/-- A fold over operations preserves the all-active property. -/
theorem allActive_foldl :
    ∀ (ops : List BotOp) (st : BotState),
      (∀ p ∈ st.activeMeetings, p.2.status = "active") →
      ∀ p ∈ (ops.foldl applyOp st).activeMeetings, p.2.status = "active"
  | [], st => fun h => by simpa using h
  | op :: rest, st => fun h => by
    simp only [List.foldl_cons]
    exact allActive_foldl rest (applyOp st op) (allActive_applyOp st op h)

/-- C10: from startup, under any sequence of join and leave requests,
every session present in the registry has status active, and the
active-meetings handler only ever reports summaries with status
active — no operation ever stores or updates an entry to any other
status. -/
theorem registry_status_always_active :
    ∀ (ops : List BotOp),
      (∀ p ∈ (runOps ops).activeMeetings, p.2.status = "active") ∧
      (∀ m ∈ apiActiveMeetings (runOps ops), m.status = "active") := by
  intro ops
  have h := allActive_foldl ops initialBotState (by simp [initialBotState])
  refine ⟨h, ?_⟩
  intro m hm
  obtain ⟨p, hp, rfl⟩ := List.mem_map.mp hm
  exact h p hp

/-- Concrete instance of C10 after one successful zoom join. -/
theorem registry_status_always_active_witness :
    MeetingSummary.mk "123456789" "zoom" 0 "active" ∈
      apiActiveMeetings (runOps [BotOp.join
        (ApiJoinEnv.mk (ZoomJoinEnv.mk true true true true true true true true true 0)
          (MeetJoinEnv.mk true true true true true true true true 0)
          (TeamsJoinEnv.mk true true true true true true true true true true 0))
        "zoom" "https://zoom.us/j/123456789" none]) ∧
    (MeetingSummary.mk "123456789" "zoom" 0 "active").status = "active" :=
  ⟨by decide,
    (registry_status_always_active [BotOp.join
        (ApiJoinEnv.mk (ZoomJoinEnv.mk true true true true true true true true true 0)
          (MeetJoinEnv.mk true true true true true true true true 0)
          (TeamsJoinEnv.mk true true true true true true true true true true 0))
        "zoom" "https://zoom.us/j/123456789" none]).2
      (MeetingSummary.mk "123456789" "zoom" 0 "active") (by decide)⟩
